import Mathlib

/-
Verification of the paysecond ledger core against its specification.

The definitions below are a shallow embedding of the SQL DDL shipped in
app/models/{Wallet,Transaction,WalletAuditLog,FailedTransaction,
EncryptionKey,BatchProcessing}.py: each table becomes a structure, each
stored procedure or trigger becomes a pure function over explicit state,
and a raised SQL exception becomes an Except.error.  Monetary amounts are
kept in integer cents (NUMERIC(12,2) values scaled by 100), timestamps and
row ids are natural numbers.  An Except.error models an aborted database
transaction: the run wrappers return the unchanged pre-state in that case,
mirroring the rollback performed by the engine.
-/

namespace PaySecond

/-- wallet_currency / transaction_currency enumeration. -/
inductive Currency
  | EUR | USD | GBP | XOF | CAD | JPY
deriving DecidableEq

/-- wallet_status enumeration. -/
inductive WalletStatus
  | active | inactive | frozen
deriving DecidableEq

/-- transaction_type enumeration. -/
inductive TransactionType
  | payment | refund | chargeback | withdrawal | deposit | transfer
  | fee_collection | adjustment
deriving DecidableEq

/-- transaction_method enumeration. -/
inductive TransactionMethod
  | card | wallet | bank_transfer | subscription | crypto
deriving DecidableEq

/-- transaction_status enumeration. -/
inductive TransactionStatus
  | pending | completed | failed | cancelled | refunded | disputed
  | authorized | captured
deriving DecidableEq

/-- wallet_audit_log_operation_type enumeration. -/
inductive OperationType
  | deposit | withdrawal | transfer | adjustment | fee | reversal | chargeback
deriving DecidableEq

/-- resolution_status values allowed by chk_failed_transaction_resolution_status. -/
inductive ResolutionStatus
  | investigating | resolved | denied | pending_review | escalated
deriving DecidableEq

/-- A row of the wallet table (balance in cents). -/
structure Wallet where
  wid : Nat
  userId : Nat
  balance : Int
  currency : Currency
  maxBalance : Int
  isPrimary : Bool
  status : WalletStatus
  lastUpdated : Nat
deriving DecidableEq

/-- A row of the transaction table (amount in cents). -/
structure Transaction where
  tid : Nat
  createdAt : Nat
  transactionType : TransactionType
  transactionMethod : TransactionMethod
  senderWalletId : Option Nat
  recipientWalletId : Option Nat
  amount : Int
  currency : Currency
  status : TransactionStatus
  fraudFlag : Bool
  completedAt : Option Nat
  merchantId : Option Nat
  description : Option String
  failureReason : Option String
deriving DecidableEq

/-- A row of the wallet_audit_log table.  change_amount is the persisted
computed column new_balance - old_balance; entry_hash is filled by the
calculate_audit_fields trigger (modelled separately below). -/
structure AuditEntry where
  aid : Nat
  walletId : Nat
  userId : Option Nat
  oldBalance : Int
  newBalance : Int
  changeAmount : Int
  operationType : OperationType
  transactionId : Option Nat
  changedAt : Nat
  entryHash : Option String
deriving DecidableEq

/-- A row of the failed_transaction table (the columns touched by the
log_failed_transaction procedure and the resolution triggers). -/
structure FailedTransactionRow where
  fid : Nat
  transactionId : Option Nat
  errorCode : Option String
  reason : Option String
  fraudDetected : Bool
  resolutionStatus : ResolutionStatus
  resolvedAt : Option Nat
  createdAt : Nat
  updatedAt : Nat
  escalationLevel : Int
  ipAddress : Option String
  userAgent : Option String
  createdBy : Option Nat
deriving DecidableEq

/-- The mutable database state the ledger procedures operate on. -/
structure LedgerState where
  wallets : List Wallet
  transactions : List Transaction
  auditLog : List AuditEntry
  failedTransactions : List FailedTransactionRow
  nextId : Nat
deriving DecidableEq

/-- SELECT ... FROM wallet WHERE id = i. -/
def lookupWallet (ws : List Wallet) (i : Nat) : Option Wallet :=
  ws.find? (fun w => w.wid == i)

/-- EXISTS(SELECT 1 FROM wallet WHERE id = i), used for foreign-key checks. -/
def walletExists (ws : List Wallet) (i : Nat) : Bool :=
  ws.any (fun w => w.wid == i)

/-- PERFORM 1 FROM transaction WHERE id = i. -/
def txExists (ts : List Transaction) (i : Nat) : Bool :=
  ts.any (fun t => t.tid == i)

/-- chk_transaction_amount_range upper bound: 10 000 000.00 in cents. -/
def transactionAmountCeiling : Int := 1000000000

/-- chk_wallet_ids_for_type from the transaction table. -/
def walletIdsForTypeOk (t : Transaction) : Bool :=
  (senderRequiredType t.transactionType && t.senderWalletId.isSome) ||
  (recipientRequiredType t.transactionType && t.recipientWalletId.isSome) ||
  (eitherWalletType t.transactionType &&
    (t.senderWalletId.isSome || t.recipientWalletId.isSome))
where
  senderRequiredType : TransactionType → Bool
    | .payment => true | .transfer => true | .withdrawal => true
    | .chargeback => true | _ => false
  recipientRequiredType : TransactionType → Bool
    | .deposit => true | .payment => true | .transfer => true
    | .refund => true | _ => false
  eitherWalletType : TransactionType → Bool
    | .fee_collection => true | .adjustment => true | _ => false

/-- The constraints checked when a row is inserted into the transaction
table: chk_transaction_amount_range, chk_no_self_transfer (NULLs compare
as not distinct, exactly as IS DISTINCT FROM does on Option), the
chk_wallet_ids_for_type disjunction, and the wallet foreign keys. -/
def transactionInsertOk (st : LedgerState) (t : Transaction) : Bool :=
  (decide (0 < t.amount) && decide (t.amount ≤ transactionAmountCeiling)) &&
  (t.senderWalletId != t.recipientWalletId) &&
  walletIdsForTypeOk t &&
  t.senderWalletId.all (walletExists st.wallets) &&
  t.recipientWalletId.all (walletExists st.wallets)

/-- UPDATE wallet SET balance = balance + delta, last_updated = now WHERE
id = i (the last_updated assignment is also forced by trg_update_wallet). -/
def updateWalletBalance (ws : List Wallet) (i : Nat) (delta : Int) (now : Nat) :
    List Wallet :=
  ws.map (fun w =>
    if w.wid == i then
      { w with balance := w.balance + delta, lastUpdated := now }
    else w)

/-- trg_check_wallet_balance / chk_wallet_balance_non_negative: after an
update of wallet i, every row of wallet i must keep a non-negative
balance, otherwise the statement raises. -/
def balanceCheckOk (ws : List Wallet) (i : Nat) : Bool :=
  ws.all (fun w => (w.wid != i) || decide (0 ≤ w.balance))

/-- The statuses treated as terminal by set_transaction_completed_at. -/
def isTerminalStatus : TransactionStatus → Bool
  | .completed => true | .failed => true | .refunded => true
  | .cancelled => true | _ => false

/-- trg_set_transaction_completed_at: BEFORE UPDATE, stamps completed_at
when the status first moves into a terminal value. -/
def applyCompletedAtTrigger (oldRow newRow : Transaction) (now : Nat) :
    Transaction :=
  if isTerminalStatus newRow.status && !(isTerminalStatus oldRow.status) then
    { newRow with completedAt := some now }
  else newRow

/-- UPDATE transaction SET status = s WHERE id = i, with the BEFORE UPDATE
completion trigger applied to each affected row. -/
def setTransactionStatus (ts : List Transaction) (i : Nat)
    (s : TransactionStatus) (now : Nat) : List Transaction :=
  ts.map (fun t =>
    if t.tid == i then applyCompletedAtTrigger t { t with status := s } now
    else t)

/-- The UPDATE performed at the end of log_failed_transaction: status
failed, completed_at stamped, fraud_flag and failure_reason copied. -/
def markTransactionFailed (ts : List Transaction) (i : Nat)
    (reason : Option String) (fraud : Bool) (now : Nat) : List Transaction :=
  ts.map (fun t =>
    if t.tid == i then
      applyCompletedAtTrigger t
        { t with status := .failed, completedAt := some now,
                 fraudFlag := fraud, failureReason := reason } now
    else t)

/-- The VALUES of the INSERT INTO transaction statement of
process_payment: type payment, method wallet, status pending. -/
def paymentTransactionRow (tid now pSender pRecipient : Nat) (pAmount : Int)
    (pCurrency : Currency) (pDescription : String) (pMerchantId : Option Nat) :
    Transaction :=
  { tid := tid, createdAt := now, transactionType := .payment,
    transactionMethod := .wallet, senderWalletId := some pSender,
    recipientWalletId := some pRecipient, amount := pAmount,
    currency := pCurrency, status := .pending, fraudFlag := false,
    completedAt := none, merchantId := pMerchantId,
    description := some pDescription, failureReason := none }

/-- The inner BEGIN ... EXCEPTION block of the process_payment procedure:
insert the pending transaction, debit the sender, credit the recipient,
then mark the transaction completed.  Any raised error aborts the whole
block (PL/pgSQL rolls the subtransaction back before the handler runs). -/
def processPaymentBody (st : LedgerState) (now : Nat)
    (pSender pRecipient : Nat) (pAmount : Int) (pCurrency : Currency)
    (pDescription : String) (pMerchantId : Option Nat) :
    Except String LedgerState :=
  let tid := st.nextId
  let tx : Transaction :=
    paymentTransactionRow tid now pSender pRecipient pAmount pCurrency
      pDescription pMerchantId
  if !(transactionInsertOk st tx) then
    Except.error "transaction insert constraint violation"
  else
    let st1 : LedgerState :=
      { st with transactions := st.transactions ++ [tx], nextId := tid + 1 }
    let ws1 := updateWalletBalance st1.wallets pSender (-pAmount) now
    if !(balanceCheckOk ws1 pSender) then
      Except.error "Le solde du portefeuille ne peut pas etre negatif."
    else
      let ws2 := updateWalletBalance ws1 pRecipient pAmount now
      if !(balanceCheckOk ws2 pRecipient) then
        Except.error "Le solde du portefeuille ne peut pas etre negatif."
      else
        let txs := setTransactionStatus st1.transactions tid .completed now
        Except.ok { st1 with wallets := ws2, transactions := txs }

/-- Embedding of the stored procedure process_payment from
app/models/Transaction.py.  The initial SELECT checks the sender balance
before anything is written; the EXCEPTION handler of the source updates
the transaction row to failed, but the row it names was inserted inside
the rolled-back subtransaction, so the update matches nothing, and the
re-RAISE then aborts the enclosing database transaction. -/
def process_payment (st : LedgerState) (now : Nat) (pSender pRecipient : Nat)
    (pAmount : Int) (pCurrency : Currency) (pDescription : String)
    (pMerchantId : Option Nat) : Except String LedgerState :=
  match lookupWallet st.wallets pSender with
  | none => Except.error "Solde insuffisant ou portefeuille introuvable."
  | some senderRow =>
    if senderRow.balance < pAmount then
      Except.error "Solde insuffisant ou portefeuille introuvable."
    else
      processPaymentBody st now pSender pRecipient pAmount pCurrency
        pDescription pMerchantId

/-- CALL process_payment(...) from a fresh session: an error aborts the
enclosing database transaction, so the caller observes the pre-state. -/
def runProcessPayment (st : LedgerState) (now : Nat) (pSender pRecipient : Nat)
    (pAmount : Int) (pCurrency : Currency) (pDescription : String)
    (pMerchantId : Option Nat) : LedgerState × Option String :=
  match process_payment st now pSender pRecipient pAmount pCurrency
      pDescription pMerchantId with
  | Except.ok stNew => (stNew, none)
  | Except.error e => (st, some e)

/-- Embedding of the stored procedure log_failed_transaction from
app/models/FailedTransaction.py.  PERFORM 1 FROM transaction WHERE id =
p_transaction_id finds no row when the parameter is NULL (an SQL equality
with NULL matches nothing), so a NULL id raises just like an unknown id. -/
def log_failed_transaction (st : LedgerState) (now : Nat)
    (pTransactionId : Option Nat) (pErrorCode : Option String)
    (pReason : Option String) (pFraudDetected : Bool)
    (pIpAddress pUserAgent : Option String) (pCreatedBy : Option Nat) :
    Except String LedgerState :=
  match pTransactionId with
  | none => Except.error "Transaction invalide"
  | some t =>
    if txExists st.transactions t then
      let row : FailedTransactionRow :=
        { fid := st.nextId, transactionId := some t, errorCode := pErrorCode,
          reason := pReason, fraudDetected := pFraudDetected,
          resolutionStatus := .investigating, resolvedAt := none,
          createdAt := now, updatedAt := now, escalationLevel := 0,
          ipAddress := pIpAddress, userAgent := pUserAgent,
          createdBy := pCreatedBy }
      Except.ok { st with
        failedTransactions := st.failedTransactions ++ [row],
        transactions :=
          markTransactionFailed st.transactions t pReason pFraudDetected now,
        nextId := st.nextId + 1 }
    else Except.error "Transaction invalide"

/-- CALL log_failed_transaction(...) from a fresh session, with rollback
of the enclosing database transaction on error. -/
def runLogFailedTransaction (st : LedgerState) (now : Nat)
    (pTransactionId : Option Nat) (pErrorCode : Option String)
    (pReason : Option String) (pFraudDetected : Bool)
    (pIpAddress pUserAgent : Option String) (pCreatedBy : Option Nat) :
    LedgerState × Option String :=
  match log_failed_transaction st now pTransactionId pErrorCode pReason
      pFraudDetected pIpAddress pUserAgent pCreatedBy with
  | Except.ok stNew => (stNew, none)
  | Except.error e => (st, some e)

/-- encryption_key_algorithm enumeration. -/
inductive KeyAlgorithm
  | aes_256_gcm | rsa_4096 | chacha20_poly1305
deriving DecidableEq

/-- encryption_key_type enumeration. -/
inductive KeyType
  | card_data | personal_data | documents | transaction_details
deriving DecidableEq

/-- encryption_key_storage enumeration. -/
inductive KeyStorage
  | database | kms_external | hsm
deriving DecidableEq

/-- A row of the encryption_key table.  The computed key_fingerprint
column is not written by any procedure or trigger of the repository and
plays no role in the claims, so it is left out of the row. -/
structure EncryptionKeyRow where
  kid : Nat
  key : String
  keyAlgorithm : KeyAlgorithm
  active : Bool
  createdAt : Nat
  rotatedAt : Option Nat
  keyType : KeyType
  keyVersion : Int
  expiresAt : Nat
  keyStorage : KeyStorage
deriving DecidableEq

/-- chk_encryption_key_version_positive and
chk_encryption_key_expires_after_created. -/
def encryptionKeyChecksOk (k : EncryptionKeyRow) : Bool :=
  decide (0 < k.keyVersion) && decide (k.createdAt < k.expiresAt)

/-- The partial unique index idx_encryption_key_active_type_optimized on
key_type WHERE active = TRUE: writing an active row while another active
row of the same key_type exists raises a duplicate-key error.  The index
is checked while the row is written, before any AFTER trigger runs. -/
def activeTypeConflict (ks : List EncryptionKeyRow) (k : EncryptionKeyRow) :
    Bool :=
  k.active && ks.any (fun k0 =>
    k0.active && k0.keyType == k.keyType && k0.kid != k.kid)

/-- Body of the rotate_encryption_keys trigger function: deactivate every
other active key of the same type and stamp its rotated_at. -/
def rotate_encryption_keys (ks : List EncryptionKeyRow)
    (newKey : EncryptionKeyRow) (now : Nat) : List EncryptionKeyRow :=
  ks.map (fun k0 =>
    if k0.active && k0.keyType == newKey.keyType && k0.kid != newKey.kid then
      { k0 with active := false, rotatedAt := some now }
    else k0)

/-- INSERT INTO encryption_key: the check constraints and the partial
unique index are enforced during the insert itself; the AFTER INSERT
trigger trg_rotate_keys (WHEN NEW.active = TRUE) runs only once the
insert has succeeded. -/
def insertEncryptionKey (ks : List EncryptionKeyRow) (k : EncryptionKeyRow)
    (now : Nat) : Except String (List EncryptionKeyRow) :=
  if !(encryptionKeyChecksOk k) then
    Except.error "encryption_key check constraint violation"
  else if activeTypeConflict ks k then
    Except.error
      "duplicate key value violates unique index idx_encryption_key_active_type_optimized"
  else
    let ks1 := ks ++ [k]
    Except.ok (if k.active then rotate_encryption_keys ks1 k now else ks1)

/-- Condition under which the prevent_key_deactivation trigger raises:
the row goes from active to inactive and no other active key of the same
type exists. -/
def deactivationBlocked (ks : List EncryptionKeyRow)
    (oldRow : EncryptionKeyRow) (newActive : Bool) : Bool :=
  oldRow.active && !newActive && !(ks.any (fun k0 =>
    k0.keyType == oldRow.keyType && k0.active && k0.kid != oldRow.kid))

/-- UPDATE encryption_key SET active = FALSE WHERE id = kid, guarded by
the BEFORE UPDATE trigger trg_prevent_key_deactivation.  An update that
matches no row is a no-op, as in SQL. -/
def deactivateEncryptionKey (ks : List EncryptionKeyRow) (kid : Nat) :
    Except String (List EncryptionKeyRow) :=
  match ks.find? (fun k0 => k0.kid == kid) with
  | none => Except.ok ks
  | some oldRow =>
    if deactivationBlocked ks oldRow false then
      Except.error "Impossible de desactiver la derniere cle active de type"
    else
      Except.ok (ks.map (fun k0 =>
        if k0.kid == kid then { k0 with active := false } else k0))

/-- Modelled from the spec: getActiveKey is exposed in the specification
(section 4.4) but has no implementation under src; per the spec it
returns the active key of the given type and fails with NoActiveKeyError
when none exists. -/
def getActiveKey (ks : List EncryptionKeyRow) (t : KeyType) :
    Except String EncryptionKeyRow :=
  match ks.find? (fun k0 => k0.active && k0.keyType == t) with
  | some k0 => Except.ok k0
  | none => Except.error "NoActiveKeyError"

/-- The canonical string hashed by calculate_audit_fields:
wallet_id::TEXT || new_balance::TEXT || changed_at::TEXT (no separator). -/
def auditCanonicalString (walletIdText newBalanceText changedAtText : String) :
    String :=
  walletIdText ++ newBalanceText ++ changedAtText

/-- entry_hash as computed by the trigger; the cryptographic digest
(pgcrypto sha256 with hex encoding in the source) is a parameter of the
embedding. -/
def computeEntryHash (digest : String → String)
    (walletIdText newBalanceText changedAtText : String) : String :=
  digest (auditCanonicalString walletIdText newBalanceText changedAtText)

/-- The text fields of a wallet_audit_log row that feed its integrity
hash, together with the stored hash. -/
structure AuditHashFields where
  walletIdText : String
  newBalanceText : String
  changedAtText : String
  entryHash : String
deriving DecidableEq

/-- The entry_hash assignment of the calculate_audit_fields BEFORE INSERT
trigger, restricted to the fields the hash is computed from. -/
def calculate_audit_fields (digest : String → String)
    (walletIdText newBalanceText changedAtText : String) : AuditHashFields :=
  { walletIdText := walletIdText, newBalanceText := newBalanceText,
    changedAtText := changedAtText,
    entryHash := computeEntryHash digest walletIdText newBalanceText changedAtText }

/-- Body of the set_resolved_at_failed_transaction BEFORE UPDATE trigger:
stamp resolved_at whenever the status moves into resolved from a
different status, and always refresh updated_at. -/
def set_resolved_at_failed_transaction (oldRow newRow : FailedTransactionRow)
    (now : Nat) : FailedTransactionRow :=
  let n1 :=
    if newRow.resolutionStatus == .resolved &&
        !(oldRow.resolutionStatus == .resolved) then
      { newRow with resolvedAt := some now }
    else newRow
  { n1 with updatedAt := now }

/-- UPDATE failed_transaction SET resolution_status = s on one row, with
the BEFORE UPDATE trigger applied. -/
def updateResolutionStatus (row : FailedTransactionRow) (s : ResolutionStatus)
    (now : Nat) : FailedTransactionRow :=
  set_resolved_at_failed_transaction row { row with resolutionStatus := s } now

/-- A row of the batch_processing table (the columns the progress trigger
and its check constraints read).  processed_items is NOT NULL, so it is a
plain Int; total_items is nullable. -/
structure BatchJobRow where
  jid : Nat
  jobType : String
  status : String
  retryCount : Int
  progressPercentage : Int
  totalItems : Option Int
  processedItems : Int
  priority : Int
  maxRetry : Int
  updatedAt : Nat
deriving DecidableEq

/-- chk_batch_job_type. -/
def jobTypeOk (s : String) : Bool :=
  s == "interest_calculation" || s == "fraud_scan" || s == "kyc_renewal" ||
    s == "report_generation"

/-- chk_batch_status. -/
def jobStatusOk (s : String) : Bool :=
  s == "pending" || s == "running" || s == "completed" || s == "failed" ||
    s == "retrying" || s == "cancelled"

/-- Body of the update_batch_progress BEFORE INSERT OR UPDATE trigger.
processed_items is a NOT NULL column, so the IS NOT NULL conjunct of the
source always holds; SQL integer division truncates toward zero, which is
Int.tdiv. -/
def update_batch_progress (j : BatchJobRow) : BatchJobRow :=
  match j.totalItems with
  | some t =>
    if 0 < t then
      { j with progressPercentage := Int.tdiv (j.processedItems * 100) t }
    else j
  | none => j

/-- The check constraints of batch_processing evaluated on the row that
results from the BEFORE triggers. -/
def batchChecksOk (j : BatchJobRow) : Bool :=
  jobTypeOk j.jobType && jobStatusOk j.status &&
  decide (0 ≤ j.progressPercentage) && decide (j.progressPercentage ≤ 100) &&
  decide (1 ≤ j.priority) && decide (j.priority ≤ 5) &&
  decide (0 ≤ j.maxRetry)

/-- A write (INSERT or UPDATE) of a batch_processing row: the BEFORE
triggers run first (progress recomputation, updated_at refresh), then the
check constraints either accept the resulting row or abort the write. -/
def writeBatchJob (newRow : BatchJobRow) (now : Nat) :
    Except String BatchJobRow :=
  let r1 := update_batch_progress newRow
  let r2 := { r1 with updatedAt := now }
  if batchChecksOk r2 then Except.ok r2
  else Except.error "batch_processing check constraint violation"

/-!  Concrete fixtures used by the scenario theorems. -/

/-- Wallet A of the transfer scenarios: 100.00 EUR, active, max_balance
1 000 000.00. -/
def walletA : Wallet :=
  { wid := 1, userId := 11, balance := 10000, currency := .EUR,
    maxBalance := 100000000, isPrimary := true, status := .active,
    lastUpdated := 0 }

/-- Wallet B of the transfer scenarios: 0.00 EUR, active, max_balance
1 000 000.00. -/
def walletB : Wallet :=
  { wid := 2, userId := 12, balance := 0, currency := .EUR,
    maxBalance := 100000000, isPrimary := true, status := .active,
    lastUpdated := 0 }

/-- Initial state of the successful-transfer scenario. -/
def stTransfer : LedgerState :=
  { wallets := [walletA, walletB], transactions := [], auditLog := [],
    failedTransactions := [], nextId := 100 }

/-- The completed transaction row produced by the successful transfer of
40.00 EUR from wallet A to wallet B at time 7. -/
def txTransferDone : Transaction :=
  { tid := 100, createdAt := 7, transactionType := .payment,
    transactionMethod := .wallet, senderWalletId := some 1,
    recipientWalletId := some 2, amount := 4000, currency := .EUR,
    status := .completed, fraudFlag := false, completedAt := some 7,
    merchantId := none, description := some "transfer", failureReason := none }

/-- The state the successful transfer of 40.00 EUR leaves behind. -/
def stTransferAfter : LedgerState :=
  { wallets := [{ walletA with balance := 6000, lastUpdated := 7 },
                { walletB with balance := 4000, lastUpdated := 7 }],
    transactions := [txTransferDone], auditLog := [],
    failedTransactions := [], nextId := 101 }

/-- Initial state of the insufficient-funds scenario: wallet A holds only
10.00 EUR. -/
def stInsufficient : LedgerState :=
  { wallets := [{ walletA with balance := 1000 }, walletB],
    transactions := [], auditLog := [], failedTransactions := [],
    nextId := 100 }

/-- Wallet C: 40.00 EUR with a 45.00 max_balance ceiling. -/
def walletC : Wallet :=
  { wid := 3, userId := 13, balance := 4000, currency := .EUR,
    maxBalance := 4500, isPrimary := true, status := .active,
    lastUpdated := 0 }

/-- Initial state of the ceiling scenario: a credit of 40.00 onto wallet C
would land at 80.00, far above its 45.00 ceiling. -/
def stCeiling : LedgerState :=
  { wallets := [{ walletA with balance := 9000 }, walletC],
    transactions := [], auditLog := [], failedTransactions := [],
    nextId := 100 }

/-- Helper: if a wallet of the updated list is not the updated id, it was
already in the original list. -/
theorem mem_updateWalletBalance_of_ne {ws : List Wallet} {i : Nat}
    {delta : Int} {now : Nat} {w : Wallet}
    (hw : w ∈ updateWalletBalance ws i delta now) (hne : w.wid ≠ i) :
    w ∈ ws := by
  unfold updateWalletBalance at hw
  rcases List.mem_map.mp hw with ⟨w0, hw0, hmap⟩
  by_cases h0 : w0.wid = i
  · exfalso
    apply hne
    rw [← hmap]
    simp [h0]
  · simpa [h0, ← hmap] using hw0

/-- Helper: the per-row balance guard makes every row carrying the
updated id non-negative. -/
theorem balanceCheckOk_nonneg {ws : List Wallet} {i : Nat}
    (hok : balanceCheckOk ws i = true) {w : Wallet} (hw : w ∈ ws)
    (hid : w.wid = i) : 0 ≤ w.balance := by
  unfold balanceCheckOk at hok
  have h := List.all_eq_true.mp hok w hw
  simp [hid] at h
  exact h

/-- Helper: a successful run of the process_payment body leaves the
failed_transaction and audit tables untouched, and its final wallet list
is the two balance updates with both per-row balance guards passed. -/
theorem processPaymentBody_ok_shape (st : LedgerState) (now a b : Nat)
    (amt : Int) (c : Currency) (d : String) (m : Option Nat)
    (s : LedgerState)
    (h : processPaymentBody st now a b amt c d m = Except.ok s) :
    s.failedTransactions = st.failedTransactions ∧ s.auditLog = st.auditLog ∧
      s.wallets =
        updateWalletBalance (updateWalletBalance st.wallets a (-amt) now)
          b amt now ∧
      balanceCheckOk (updateWalletBalance st.wallets a (-amt) now) a = true ∧
      balanceCheckOk
        (updateWalletBalance (updateWalletBalance st.wallets a (-amt) now)
          b amt now) b = true := by
  simp only [processPaymentBody] at h
  split at h
  · exact Except.noConfusion h
  · split at h
    · exact Except.noConfusion h
    · split at h
      · exact Except.noConfusion h
      · rename_i hc1 hc2
        cases h
        refine ⟨rfl, rfl, rfl, ?_, ?_⟩
        · simpa using hc1
        · simpa using hc2

/-- Helper: a successful process_payment call leaves failed_transaction
and wallet_audit_log untouched. -/
theorem processPayment_ok_tables (st : LedgerState) (now a b : Nat)
    (amt : Int) (c : Currency) (d : String) (m : Option Nat)
    (s : LedgerState)
    (h : process_payment st now a b amt c d m = Except.ok s) :
    s.failedTransactions = st.failedTransactions ∧ s.auditLog = st.auditLog := by
  unfold process_payment at h
  split at h
  · exact Except.noConfusion h
  · split at h
    · exact Except.noConfusion h
    · exact ⟨(processPaymentBody_ok_shape _ _ _ _ _ _ _ _ _ h).1,
        (processPaymentBody_ok_shape _ _ _ _ _ _ _ _ _ h).2.1⟩

/-- C1: the claim promises that a failed transfer attempt marks the
Transaction failed and records a FailedTransaction.  On the insufficient
-funds scenario of the spec (wallet A holds 10.00 EUR, transfer of 40.00
EUR requested) the procedure raises before inserting anything and the
enclosing transaction rolls back: afterwards the failed_transaction table
is empty and no Transaction row exists at all, failed or otherwise. -/
theorem C1_counterexample :
    ((runProcessPayment stInsufficient 7 1 2 4000 .EUR "transfer" none).2
        = some "Solde insuffisant ou portefeuille introuvable.") ∧
    ((runProcessPayment stInsufficient 7 1 2 4000 .EUR "transfer"
        none).1.failedTransactions = []) ∧
    ((runProcessPayment stInsufficient 7 1 2 4000 .EUR "transfer"
        none).1.transactions = []) := by
  exact ⟨rfl, rfl, rfl⟩

/-- C1 (amended): a transfer attempt that fails at any step is discarded
whole - balances and the pending Transaction row included - and the
caller sees the pre-call state; process_payment itself never creates a
FailedTransaction record, on failure or on success.  FailedTransaction
rows come only from explicit log_failed_transaction calls. -/
theorem C1_amended_no_failed_transaction_record (st : LedgerState)
    (now a b : Nat) (amt : Int) (c : Currency) (d : String)
    (m : Option Nat) :
    ((runProcessPayment st now a b amt c d m).1.failedTransactions
      = st.failedTransactions) ∧
    (∀ e, (runProcessPayment st now a b amt c d m).2 = some e →
      (runProcessPayment st now a b amt c d m).1 = st) := by
  constructor
  · unfold runProcessPayment
    cases h : process_payment st now a b amt c d m with
    | ok s => exact (processPayment_ok_tables st now a b amt c d m s h).1
    | error e => rfl
  · intro e he
    unfold runProcessPayment at he ⊢
    cases h : process_payment st now a b amt c d m with
    | ok s => rw [h] at he; simp at he
    | error e2 => rfl

/-- Witness for C1 (amended) at the insufficient-funds scenario. -/
theorem C1_amended_no_failed_transaction_record_witness :
    ((runProcessPayment stInsufficient 7 1 2 4000 .EUR "transfer"
        none).1.failedTransactions = stInsufficient.failedTransactions) ∧
    ((runProcessPayment stInsufficient 7 1 2 4000 .EUR "transfer" none).1
      = stInsufficient) := by
  have h := C1_amended_no_failed_transaction_record stInsufficient 7 1 2 4000
    .EUR "transfer" none
  exact ⟨h.1, h.2 "Solde insuffisant ou portefeuille introuvable." rfl⟩

/-- C2: the claim promises two audit entries for the completed transfer.
The transfer of 40.00 EUR from wallet A (100.00 EUR) to wallet B (0.00
EUR) completes, but process_payment writes nothing to wallet_audit_log:
the audit log is empty afterwards, so zero entries reference the
transfer, not two. -/
theorem C2_counterexample :
    ((runProcessPayment stTransfer 7 1 2 4000 .EUR "transfer" none).2
      = none) ∧
    (((runProcessPayment stTransfer 7 1 2 4000 .EUR "transfer"
        none).1.auditLog.filter
          (fun e => e.transactionId == some 100)).length = 0) := by
  exact ⟨rfl, rfl⟩

/-- C2 (amended): the transfer scenario completes with A at 60.00, B at
40.00 and the Transaction in status completed with its completion
timestamp stamped, but no audit entries are created - process_payment
does not write to wallet_audit_log. -/
theorem C2_amended_transfer_result :
    runProcessPayment stTransfer 7 1 2 4000 .EUR "transfer" none
      = (stTransferAfter, none) := by
  rfl

/-- C3: the claim promises that a credit whose result exceeds max_balance
fails with BalanceCeilingExceeded.  Transferring 40.00 EUR onto wallet C
(balance 40.00, max_balance 45.00) succeeds and leaves wallet C at 80.00,
above its ceiling: no upper-bound check exists in the wallet table or the
payment procedure. -/
theorem C3_counterexample :
    ((runProcessPayment stCeiling 7 1 3 4000 .EUR "transfer" none).2
      = none) ∧
    (lookupWallet (runProcessPayment stCeiling 7 1 3 4000 .EUR "transfer"
        none).1.wallets 3
      = some { walletC with balance := 8000, lastUpdated := 7 }) ∧
    ((lookupWallet (runProcessPayment stCeiling 7 1 3 4000 .EUR "transfer"
        none).1.wallets 3).map
          (fun w => decide (w.maxBalance < w.balance)) = some true) := by
  exact ⟨rfl, rfl, rfl⟩

/-- C3 (amended): the lower bound is enforced - after any successful
process_payment call every wallet balance is still non-negative when all
balances were non-negative before - but no upper bound against
max_balance is enforced anywhere. -/
theorem C3_amended_balances_nonneg (st : LedgerState) (now a b : Nat)
    (amt : Int) (c : Currency) (d : String) (m : Option Nat)
    (s : LedgerState)
    (h0 : ∀ w ∈ st.wallets, 0 ≤ w.balance)
    (h : process_payment st now a b amt c d m = Except.ok s) :
    ∀ w ∈ s.wallets, 0 ≤ w.balance := by
  unfold process_payment at h
  split at h
  · exact Except.noConfusion h
  · split at h
    · exact Except.noConfusion h
    · obtain ⟨-, -, hws, hc1, hc2⟩ :=
        processPaymentBody_ok_shape _ _ _ _ _ _ _ _ _ h
      intro w hw
      rw [hws] at hw
      by_cases hb : w.wid = b
      · exact balanceCheckOk_nonneg hc2 hw hb
      · have hw1 := mem_updateWalletBalance_of_ne hw hb
        by_cases ha : w.wid = a
        · exact balanceCheckOk_nonneg hc1 hw1 ha
        · exact h0 w (mem_updateWalletBalance_of_ne hw1 ha)

/-- Witness for C3 (amended) at the successful-transfer scenario. -/
theorem C3_amended_balances_nonneg_witness :
    0 ≤ ({ walletA with balance := 6000, lastUpdated := 7 } : Wallet).balance := by
  have h := C3_amended_balances_nonneg stTransfer 7 1 2 4000 .EUR "transfer"
    none stTransferAfter (by decide) rfl
  exact h _ (by decide)

/-- Helper: the transaction-insert checks never read the currency. -/
theorem transactionInsertOk_currency (st : LedgerState) (tid now a b : Nat)
    (amt : Int) (c1 c2 : Currency) (d : String) (m : Option Nat) :
    transactionInsertOk st (paymentTransactionRow tid now a b amt c1 d m)
      = transactionInsertOk st (paymentTransactionRow tid now a b amt c2 d m) :=
  rfl

/-- Helper: the outcome of the payment body - raised error or resulting
wallet table - is the same whatever currency is requested. -/
theorem processPaymentBody_currency (st : LedgerState) (now a b : Nat)
    (amt : Int) (c1 c2 : Currency) (d : String) (m : Option Nat) :
    (processPaymentBody st now a b amt c1 d m).map LedgerState.wallets
      = (processPaymentBody st now a b amt c2 d m).map LedgerState.wallets := by
  simp only [processPaymentBody]
  rw [transactionInsertOk_currency st st.nextId now a b amt c2 c1 d m]
  cases hco :
      transactionInsertOk st
        (paymentTransactionRow st.nextId now a b amt c1 d m) with
  | false => simp [hco]
  | true =>
    simp only [hco, Except.map, apply_ite (Except.map LedgerState.wallets)]
    split_ifs <;> rfl

/-- C4: the claim promises that a currency mismatch is rejected before
any mutation.  Requesting a transfer in USD between two EUR wallets
succeeds: balances move and a completed Transaction in currency USD is
produced - no currency comparison exists anywhere in the procedure. -/
theorem C4_counterexample :
    ((runProcessPayment stTransfer 7 1 2 4000 .USD "transfer" none).2
      = none) ∧
    (lookupWallet (runProcessPayment stTransfer 7 1 2 4000 .USD "transfer"
        none).1.wallets 1
      = some { walletA with balance := 6000, lastUpdated := 7 }) ∧
    ((runProcessPayment stTransfer 7 1 2 4000 .USD "transfer"
        none).1.transactions = [{ txTransferDone with currency := .USD }]) := by
  exact ⟨rfl, rfl, rfl⟩

/-- C4 (amended): process_payment performs no currency validation at all:
for any state and any two requested currencies, the call succeeds or
fails identically, with identical balance effects and identical error;
the requested currency is only stored on the transaction row. -/
theorem C4_amended_currency_not_validated (st : LedgerState) (now a b : Nat)
    (amt : Int) (c1 c2 : Currency) (d : String) (m : Option Nat) :
    ((runProcessPayment st now a b amt c1 d m).1.wallets
      = (runProcessPayment st now a b amt c2 d m).1.wallets) ∧
    ((runProcessPayment st now a b amt c1 d m).2
      = (runProcessPayment st now a b amt c2 d m).2) := by
  have hb := processPaymentBody_currency st now a b amt c1 c2 d m
  unfold runProcessPayment process_payment
  cases hw : lookupWallet st.wallets a with
  | none => exact ⟨rfl, rfl⟩
  | some w =>
    by_cases hlt : w.balance < amt
    · simp [hlt]
    · simp only [if_neg hlt]
      cases h1 : processPaymentBody st now a b amt c1 d m with
      | ok s1 =>
        cases h2 : processPaymentBody st now a b amt c2 d m with
        | ok s2 =>
          rw [h1, h2] at hb
          simp [Except.map] at hb
          exact ⟨hb, rfl⟩
        | error e2 => rw [h1, h2] at hb; simp [Except.map] at hb
      | error e1 =>
        cases h2 : processPaymentBody st now a b amt c2 d m with
        | ok s2 => rw [h1, h2] at hb; simp [Except.map] at hb
        | error e2 =>
          rw [h1, h2] at hb
          simp [Except.map] at hb
          subst hb
          exact ⟨rfl, rfl⟩

/-- Active card_data key K1, version 1. -/
def keyK1 : EncryptionKeyRow :=
  { kid := 1, key := "material-one", keyAlgorithm := .aes_256_gcm,
    active := true, createdAt := 0, rotatedAt := none, keyType := .card_data,
    keyVersion := 1, expiresAt := 100, keyStorage := .database }

/-- Replacement card_data key K2, version 2, inserted active. -/
def keyK2 : EncryptionKeyRow :=
  { kid := 2, key := "material-two", keyAlgorithm := .aes_256_gcm,
    active := true, createdAt := 5, rotatedAt := none, keyType := .card_data,
    keyVersion := 2, expiresAt := 105, keyStorage := .database }

/-- A second active card_data key, used to exercise the success branch of
the deactivation guard. -/
def keyK3 : EncryptionKeyRow :=
  { keyK1 with kid := 3 }

/-- C5, evaluated at the failing input: with K1 the active card_data key,
inserting the replacement K2 (active, version 2) is rejected by the
partial unique index idx_encryption_key_active_type_optimized, which is
checked while the row is written - before the AFTER INSERT rotation
trigger could deactivate K1.  The rotation body itself would have
deactivated K1 and stamped its rotated_at had the insert been allowed
(second conjunct), K1 stays the active card_data key (third conjunct),
and inserting an active key succeeds only when no active key of that type
exists yet (fourth conjunct). -/
theorem C5_rotation_blocked_by_unique_index :
    (insertEncryptionKey [keyK1] keyK2 5 =
      Except.error
        "duplicate key value violates unique index idx_encryption_key_active_type_optimized") ∧
    (rotate_encryption_keys [keyK1, keyK2] keyK2 5 =
      [{ keyK1 with active := false, rotatedAt := some 5 }, keyK2]) ∧
    (getActiveKey [keyK1] .card_data = Except.ok keyK1) ∧
    (insertEncryptionKey [] keyK1 0 = Except.ok [keyK1]) := by
  exact ⟨rfl, rfl, rfl, rfl⟩

/-- Helper: find? of the deactivating update commutes with the map that
applies it, because the update preserves the key id. -/
theorem find?_map_deactivate (ks : List EncryptionKeyRow) (kid : Nat) :
    (ks.map (fun k0 =>
        if k0.kid == kid then { k0 with active := false } else k0)).find?
          (fun k0 => k0.kid == kid)
      = (ks.find? (fun k0 => k0.kid == kid)).map
          (fun k0 =>
            if k0.kid == kid then { k0 with active := false } else k0) := by
  rw [List.find?_map]
  have hp : ((fun k0 : EncryptionKeyRow => k0.kid == kid) ∘
      (fun k0 : EncryptionKeyRow =>
        if k0.kid == kid then { k0 with active := false } else k0))
      = (fun k0 : EncryptionKeyRow => k0.kid == kid) := by
    funext k0
    by_cases h : k0.kid = kid <;> simp [h]
  rw [hp]

/-- C6: the prevent_key_deactivation trigger protects the last active key
of a type: deactivating an active key raises - aborting the update, so
the key stays active - precisely when no other active key of its type
exists, and succeeds, leaving the key inactive, when another active key
of the same type exists. -/
theorem C6_last_active_key_guard (ks : List EncryptionKeyRow)
    (k : EncryptionKeyRow)
    (hfind : ks.find? (fun k0 => k0.kid == k.kid) = some k)
    (hact : k.active = true) :
    ((∀ k2 ∈ ks, k2.keyType = k.keyType → k2.active = true → k2.kid = k.kid) →
      deactivateEncryptionKey ks k.kid =
        Except.error "Impossible de desactiver la derniere cle active de type") ∧
    ((∃ k2 ∈ ks, k2.keyType = k.keyType ∧ k2.active = true ∧ k2.kid ≠ k.kid) →
      ∃ ks2, deactivateEncryptionKey ks k.kid = Except.ok ks2 ∧
        ks2.find? (fun k0 => k0.kid == k.kid)
          = some { k with active := false }) := by
  constructor
  · intro hall
    have hany : (ks.any (fun k0 =>
        k0.keyType == k.keyType && k0.active && k0.kid != k.kid)) = false := by
      rw [List.any_eq_false]
      intro k2 hk2 hp
      simp only [Bool.and_eq_true, beq_iff_eq, bne_iff_ne] at hp
      exact hp.2 (hall k2 hk2 hp.1.1 hp.1.2)
    unfold deactivateEncryptionKey
    rw [hfind]
    simp [deactivationBlocked, hact, hany]
  · rintro ⟨k2, hk2mem, hty, hac, hne⟩
    have hany : (ks.any (fun k0 =>
        k0.keyType == k.keyType && k0.active && k0.kid != k.kid)) = true := by
      rw [List.any_eq_true]
      exact ⟨k2, hk2mem, by simp [hty, hac, hne]⟩
    refine ⟨ks.map (fun k0 =>
      if k0.kid == k.kid then { k0 with active := false } else k0), ?_, ?_⟩
    · unfold deactivateEncryptionKey
      rw [hfind]
      simp [deactivationBlocked, hany]
    · rw [find?_map_deactivate, hfind]
      simp

/-- Witness for C6: with K1 the sole active card_data key its
deactivation raises; with K3 also active, deactivating K1 succeeds and
K1 ends inactive. -/
theorem C6_last_active_key_guard_witness :
    (deactivateEncryptionKey [keyK1] 1 =
      Except.error "Impossible de desactiver la derniere cle active de type") ∧
    (∃ ks2, deactivateEncryptionKey [keyK1, keyK3] 1 = Except.ok ks2 ∧
      ks2.find? (fun k0 => k0.kid == 1) = some { keyK1 with active := false }) := by
  constructor
  · exact (C6_last_active_key_guard [keyK1] keyK1 rfl rfl).1 (by decide)
  · exact (C6_last_active_key_guard [keyK1, keyK3] keyK1 rfl rfl).2
      ⟨keyK3, by decide, rfl, rfl, by decide⟩

/-- Helper: appending on the right is cancellable for strings. -/
theorem string_append_right_cancel {a b c : String} (h : a ++ c = b ++ c) :
    a = b := by
  have hd := congrArg String.data h
  simp only [String.data_append] at hd
  exact String.ext (List.append_cancel_right hd)

/-- Helper: appending on the left is cancellable for strings. -/
theorem string_append_left_cancel {a b c : String} (h : a ++ b = a ++ c) :
    b = c := by
  have hd := congrArg String.data h
  simp only [String.data_append] at hd
  exact String.ext (List.append_cancel_left hd)

/-- C7: for an audit entry whose hash was written by the
calculate_audit_fields trigger, recomputing the hash from the stored
wallet id, new balance and timestamp reproduces the stored hash, and -
as long as the digest is injective, which models the collision
resistance of sha256 - changing exactly one of the three fields to any
different value changes the hash.  The fields enter the canonical string
unseparated, but a single-field change still always changes the
concatenation, by cancellation on the unchanged sides. -/
theorem C7_audit_hash_integrity (digest : String → String)
    (hinj : Function.Injective digest) (w b t : String) :
    (computeEntryHash digest
        (calculate_audit_fields digest w b t).walletIdText
        (calculate_audit_fields digest w b t).newBalanceText
        (calculate_audit_fields digest w b t).changedAtText
      = (calculate_audit_fields digest w b t).entryHash) ∧
    (∀ w2, w2 ≠ w →
      computeEntryHash digest w2 b t
        ≠ (calculate_audit_fields digest w b t).entryHash) ∧
    (∀ b2, b2 ≠ b →
      computeEntryHash digest w b2 t
        ≠ (calculate_audit_fields digest w b t).entryHash) ∧
    (∀ t2, t2 ≠ t →
      computeEntryHash digest w b t2
        ≠ (calculate_audit_fields digest w b t).entryHash) := by
  refine ⟨rfl, ?_, ?_, ?_⟩
  · intro w2 hne heq
    have hcanon := hinj heq
    unfold auditCanonicalString at hcanon
    exact hne (string_append_right_cancel (string_append_right_cancel hcanon))
  · intro b2 hne heq
    have hcanon := hinj heq
    unfold auditCanonicalString at hcanon
    exact hne (string_append_left_cancel
      (string_append_right_cancel hcanon))
  · intro t2 hne heq
    have hcanon := hinj heq
    unfold auditCanonicalString at hcanon
    exact hne (string_append_left_cancel hcanon)

/-- Witness for C7 with the identity digest on concrete fields. -/
theorem C7_audit_hash_integrity_witness :
    (computeEntryHash (fun s => s) "w1" "60.00" "2026"
      = (calculate_audit_fields (fun s => s) "w1" "60.00" "2026").entryHash) ∧
    (computeEntryHash (fun s => s) "w2" "60.00" "2026"
      ≠ (calculate_audit_fields (fun s => s) "w1" "60.00" "2026").entryHash) := by
  have h := C7_audit_hash_integrity (fun s => s) (fun x y hxy => hxy)
    "w1" "60.00" "2026"
  exact ⟨h.1, h.2.1 "w2" (by decide)⟩

/-- A freshly created failed-transaction row under investigation. -/
def ftRow : FailedTransactionRow :=
  { fid := 1, transactionId := none, errorCode := none, reason := none,
    fraudDetected := false, resolutionStatus := .investigating,
    resolvedAt := none, createdAt := 0, updatedAt := 0, escalationLevel := 0,
    ipAddress := none, userAgent := none, createdBy := none }

/-- C8: the claim promises resolved_at is stamped exactly once and never
changed again.  Resolving at time 1, reopening to denied at time 2 and
resolving again at time 3 overwrites resolved_at with time 3: the trigger
re-stamps on every transition into resolved from a different status. -/
theorem C8_counterexample :
    ((updateResolutionStatus ftRow .resolved 1).resolvedAt = some 1) ∧
    ((updateResolutionStatus
        (updateResolutionStatus
          (updateResolutionStatus ftRow .resolved 1) .denied 2)
        .resolved 3).resolvedAt = some 3) ∧
    ((updateResolutionStatus
        (updateResolutionStatus
          (updateResolutionStatus ftRow .resolved 1) .denied 2)
        .resolved 3).resolvedAt ≠ some 1) := by
  exact ⟨rfl, rfl, by decide⟩

/-- C8 (amended): resolved_at is stamped with the current time on every
update that moves resolution_status from a non-resolved value into
resolved - a later re-entry into resolved re-stamps it - and is left
untouched by status updates that make no such transition. -/
theorem C8_amended_resolved_at_restamped (f : FailedTransactionRow)
    (s : ResolutionStatus) (now : Nat) :
    (s = .resolved → f.resolutionStatus ≠ .resolved →
      (updateResolutionStatus f s now).resolvedAt = some now) ∧
    ((s ≠ .resolved ∨ f.resolutionStatus = .resolved) →
      (updateResolutionStatus f s now).resolvedAt = f.resolvedAt) := by
  unfold updateResolutionStatus set_resolved_at_failed_transaction
  constructor
  · intro hs hf
    subst hs
    simp [hf]
  · intro h
    rcases h with h | h
    · simp [h]
    · simp [h]

/-- Witness for C8 (amended): first entry into resolved stamps the time. -/
theorem C8_amended_resolved_at_restamped_witness :
    ((updateResolutionStatus ftRow .resolved 5).resolvedAt = some 5) ∧
    ((updateResolutionStatus ftRow .escalated 6).resolvedAt
      = ftRow.resolvedAt) := by
  refine ⟨?_, ?_⟩
  · exact (C8_amended_resolved_at_restamped ftRow .resolved 5).1 rfl
      (by decide)
  · exact (C8_amended_resolved_at_restamped ftRow .escalated 6).2
      (Or.inl (by decide))

/-- A batch job whose processed count exceeds its total: 11 of 10 items,
otherwise fully valid. -/
def jobOverrun : BatchJobRow :=
  { jid := 1, jobType := "fraud_scan", status := "running", retryCount := 0,
    progressPercentage := 50, totalItems := some 10, processedItems := 11,
    priority := 1, maxRetry := 3, updatedAt := 0 }

/-- A half-done batch job carrying a stale supplied progress value. -/
def jobHalf : BatchJobRow :=
  { jid := 2, jobType := "fraud_scan", status := "running", retryCount := 0,
    progressPercentage := 7, totalItems := some 10, processedItems := 5,
    priority := 1, maxRetry := 3, updatedAt := 0 }

/-- C9: the claim promises progress_percentage is clamped to [0,100].
Writing a job with processed_items = 11 of total_items = 10 computes 110,
which is not clamped: the chk_batch_progress_percentage constraint
rejects the whole write instead of storing 100. -/
theorem C9_counterexample :
    writeBatchJob jobOverrun 5 =
      Except.error "batch_processing check constraint violation" := by
  rfl

/-- C9 (amended): whenever a row with total_items > 0 is written, the
trigger overwrites progress_percentage with the truncated quotient
processed_items * 100 / total_items, ignoring any supplied value; the
result is not clamped - if it falls outside [0,100] the write is
rejected by the check constraint and the row keeps its previous state. -/
theorem C9_amended_progress_overwritten (j : BatchJobRow) (now : Nat)
    (t : Int) (ht : j.totalItems = some t) (htpos : 0 < t)
    (hjt : jobTypeOk j.jobType = true) (hst : jobStatusOk j.status = true)
    (hp1 : 1 ≤ j.priority) (hp2 : j.priority ≤ 5) (hmr : 0 ≤ j.maxRetry) :
    ((0 ≤ Int.tdiv (j.processedItems * 100) t ∧
        Int.tdiv (j.processedItems * 100) t ≤ 100) →
      writeBatchJob j now =
        Except.ok { j with
          progressPercentage := Int.tdiv (j.processedItems * 100) t,
          updatedAt := now }) ∧
    (¬(0 ≤ Int.tdiv (j.processedItems * 100) t ∧
        Int.tdiv (j.processedItems * 100) t ≤ 100) →
      writeBatchJob j now =
        Except.error "batch_processing check constraint violation") := by
  constructor
  · rintro ⟨h1, h2⟩
    simp [writeBatchJob, update_batch_progress, batchChecksOk, ht, htpos,
      hjt, hst, hp1, hp2, hmr, h1, h2]
  · intro hno
    rcases not_and_or.mp hno with h | h
    · simp [writeBatchJob, update_batch_progress, batchChecksOk, ht, htpos,
        hjt, hst, hp1, hp2, hmr, h]
    · simp [writeBatchJob, update_batch_progress, batchChecksOk, ht, htpos,
        hjt, hst, hp1, hp2, hmr, h]

/-- Witness for C9 (amended): the half-done job is accepted and its
supplied progress value 7 is overwritten with 50. -/
theorem C9_amended_progress_overwritten_witness :
    (writeBatchJob jobHalf 5 =
      Except.ok { jobHalf with
        progressPercentage := Int.tdiv (jobHalf.processedItems * 100) 10,
        updatedAt := 5 }) ∧
    (Int.tdiv (jobHalf.processedItems * 100) 10 = 50) := by
  refine ⟨?_, by decide⟩
  exact (C9_amended_progress_overwritten jobHalf 5 10 rfl (by decide) rfl rfl
    (by decide) (by decide) (by decide)).1 (by decide)

/-- C10: calling log_failed_transaction with a NULL transaction id or
with an id matching no Transaction row raises before inserting anything,
so the pre-state is what remains - even though the
failed_transaction.transaction_id column itself is nullable, the
procedure rejects NULL because an SQL equality with NULL matches no row. -/
theorem C10_invalid_transaction_rejected (st : LedgerState) (now : Nat)
    (ec r ip ua : Option String) (fr : Bool) (cb : Option Nat) :
    (runLogFailedTransaction st now none ec r fr ip ua cb
      = (st, some "Transaction invalide")) ∧
    (∀ t, txExists st.transactions t = false →
      runLogFailedTransaction st now (some t) ec r fr ip ua cb
        = (st, some "Transaction invalide")) := by
  constructor
  · rfl
  · intro t ht
    simp [runLogFailedTransaction, log_failed_transaction, ht]

/-- Witness for C10 on the empty-ledger state with the unknown id 42. -/
theorem C10_invalid_transaction_rejected_witness :
    (runLogFailedTransaction stTransfer 3 none none none false none none none
      = (stTransfer, some "Transaction invalide")) ∧
    (runLogFailedTransaction stTransfer 3 (some 42) none none false none none
        none = (stTransfer, some "Transaction invalide")) := by
  have h := C10_invalid_transaction_rejected stTransfer 3 none none none none
    false none
  exact ⟨h.1, h.2 42 (by decide)⟩

end PaySecond
